import Mathlib

/-
Verification development for the AlbedoRHI repository (a C++ Vulkan
resource-management wrapper).  The definitions below are a shallow
embedding of the state-relevant parts of `src/API/Vulkan`: pure
computations become Lean functions, mutation becomes explicit state
passing, and a C++ `throw` or a failing `assert` becomes `Option.none`.
Native Vulkan bit-flag and enum constants keep their values from
`vulkan_core.h`; bitmasks are `Nat` combined with `|||`.
-/

namespace AlbedoRHI

/-! ## Vulkan constants (values from vulkan_core.h) -/

def VK_PIPELINE_STAGE_TOP_OF_PIPE_BIT : Nat := 0x00000001
def VK_PIPELINE_STAGE_FRAGMENT_SHADER_BIT : Nat := 0x00000080
def VK_PIPELINE_STAGE_EARLY_FRAGMENT_TESTS_BIT : Nat := 0x00000100
def VK_PIPELINE_STAGE_TRANSFER_BIT : Nat := 0x00001000

def VK_ACCESS_SHADER_READ_BIT : Nat := 0x00000020
def VK_ACCESS_DEPTH_STENCIL_ATTACHMENT_READ_BIT : Nat := 0x00000200
def VK_ACCESS_DEPTH_STENCIL_ATTACHMENT_WRITE_BIT : Nat := 0x00000400
def VK_ACCESS_TRANSFER_WRITE_BIT : Nat := 0x00001000

def VK_IMAGE_ASPECT_COLOR_BIT : Nat := 0x00000001
def VK_IMAGE_ASPECT_DEPTH_BIT : Nat := 0x00000002
def VK_IMAGE_ASPECT_STENCIL_BIT : Nat := 0x00000004

/-- VkFormat value of VK_FORMAT_B8G8R8A8_SRGB (the swapchain image format). -/
def VK_FORMAT_B8G8R8A8_SRGB : Nat := 50
/-- VkFormat value of VK_FORMAT_S8_UINT, the lower end of the stencil range. -/
def VK_FORMAT_S8_UINT : Nat := 127
/-- VkFormat value of VK_FORMAT_D32_SFLOAT. -/
def VK_FORMAT_D32_SFLOAT : Nat := 126
/-- VkFormat value of VK_FORMAT_D24_UNORM_S8_UINT. -/
def VK_FORMAT_D24_UNORM_S8_UINT : Nat := 129
/-- VkFormat value of VK_FORMAT_D32_SFLOAT_S8_UINT, the upper end of the stencil range. -/
def VK_FORMAT_D32_SFLOAT_S8_UINT : Nat := 130

def VK_SHADER_STAGE_VERTEX_BIT : Nat := 0x00000001
def VK_SHADER_STAGE_FRAGMENT_BIT : Nat := 0x00000010

def VK_SUCCESS : Int := 0
def VK_SUBOPTIMAL_KHR : Int := 1000001003
def VK_ERROR_OUT_OF_DATE_KHR : Int := -1000001004

/-! ## Image layouts and the layout-transition protocol
(`VMA::Image` in `vulkan_memory.cc`) -/

/-- The image layouts that appear in the sources (subset of VkImageLayout). -/
inductive VkImageLayout where
  | Undefined
  | TransferDstOptimal
  | ShaderReadOnlyOptimal
  | DepthStencilAttachmentOptimal
  | ColorAttachmentOptimal
  | PresentSrcKHR
deriving DecidableEq, Repr

/-- CPU-side state of a `VMA::Image` relevant to layout transitions:
the tracked current layout and the image format (a VkFormat value). -/
structure Image where
  m_image_layout : VkImageLayout
  m_image_format : Nat
deriving DecidableEq, Repr

/-- Embedding of `VMA::Image::HasStencilComponent`: true iff the format lies
between VK_FORMAT_S8_UINT and VK_FORMAT_D32_SFLOAT_S8_UINT inclusive. -/
def Image.HasStencilComponent (img : Image) : Bool :=
  decide (VK_FORMAT_S8_UINT ≤ img.m_image_format) &&
  decide (img.m_image_format ≤ VK_FORMAT_D32_SFLOAT_S8_UINT)

/-- The fields of the VkImageMemoryBarrier built by
`deduce_transition_layout_barrier`, together with the two pipeline-stage
masks written through the out-parameters `stage_src`/`stage_dst`. -/
structure Barrier where
  srcAccessMask : Nat
  dstAccessMask : Nat
  oldLayout : VkImageLayout
  newLayout : VkImageLayout
  aspectMask : Nat
  stage_src : Nat
  stage_dst : Nat
deriving DecidableEq, Repr

/-- Embedding of `VMA::Image::deduce_transition_layout_barrier`
(vulkan_memory.cc lines 314-384).  The three `if`/`else if` arms are the
whitelist; the final `else throw std::invalid_argument` becomes `none`. -/
def Image.deduce_transition_layout_barrier (img : Image) (target_layout : VkImageLayout) :
    Option Barrier :=
  if img.m_image_layout = .Undefined ∧ target_layout = .TransferDstOptimal then
    some { srcAccessMask := 0
           dstAccessMask := VK_ACCESS_TRANSFER_WRITE_BIT
           oldLayout := img.m_image_layout
           newLayout := target_layout
           aspectMask := VK_IMAGE_ASPECT_COLOR_BIT
           stage_src := VK_PIPELINE_STAGE_TOP_OF_PIPE_BIT
           stage_dst := VK_PIPELINE_STAGE_TRANSFER_BIT }
  else if img.m_image_layout = .Undefined ∧ target_layout = .DepthStencilAttachmentOptimal then
    some { srcAccessMask := 0
           dstAccessMask := VK_ACCESS_DEPTH_STENCIL_ATTACHMENT_READ_BIT |||
                            VK_ACCESS_DEPTH_STENCIL_ATTACHMENT_WRITE_BIT
           oldLayout := img.m_image_layout
           newLayout := target_layout
           aspectMask := if img.HasStencilComponent then
                           VK_IMAGE_ASPECT_DEPTH_BIT ||| VK_IMAGE_ASPECT_STENCIL_BIT
                         else VK_IMAGE_ASPECT_DEPTH_BIT
           stage_src := VK_PIPELINE_STAGE_TOP_OF_PIPE_BIT
           stage_dst := VK_PIPELINE_STAGE_EARLY_FRAGMENT_TESTS_BIT }
  else if img.m_image_layout = .TransferDstOptimal ∧ target_layout = .ShaderReadOnlyOptimal then
    some { srcAccessMask := VK_ACCESS_TRANSFER_WRITE_BIT
           dstAccessMask := VK_ACCESS_SHADER_READ_BIT
           oldLayout := img.m_image_layout
           newLayout := target_layout
           aspectMask := VK_IMAGE_ASPECT_COLOR_BIT
           stage_src := VK_PIPELINE_STAGE_TRANSFER_BIT
           stage_dst := VK_PIPELINE_STAGE_FRAGMENT_SHADER_BIT }
  else none

/-- Embedding of `VMA::Image::TransitionLayoutCommand` (vulkan_memory.cc
lines 276-293): deduce the barrier, record `vkCmdPipelineBarrier`, then set
`m_image_layout = target_layout`.  When the deduction throws, the layout
update is never reached, so the image is returned unchanged by `none`. -/
def Image.TransitionLayoutCommand (img : Image) (target_layout : VkImageLayout) :
    Option (Barrier × Image) :=
  match img.deduce_transition_layout_barrier target_layout with
  | none => none
  | some b => some (b, { img with m_image_layout := target_layout })

/-- Embedding of `VMA::Image::TransitionLayout` (vulkan_memory.cc lines
265-274): record the transition into a fresh one-time command buffer,
submit, then assign `m_image_layout = target_layout` once more. -/
def Image.TransitionLayout (img : Image) (target_layout : VkImageLayout) :
    Option (Barrier × Image) :=
  match img.TransitionLayoutCommand target_layout with
  | none => none
  | some (b, img1) => some (b, { img1 with m_image_layout := target_layout })

/-- One recorded step of `VMA::Image::WriteCommand`. -/
inductive ImageWriteStep where
  | pipeline_barrier (b : Barrier)
  | copy_buffer_to_image (layout_at_copy : VkImageLayout)
deriving DecidableEq, Repr

/-- Embedding of `VMA::Image::WriteCommand` (vulkan_memory.cc lines
228-258): transition to TransferDst, `vkCmdCopyBufferToImage` at the
image's (just updated) layout, then transition to ShaderReadOnly. -/
def Image.WriteCommand (img : Image) : Option (List ImageWriteStep × Image) :=
  match img.TransitionLayoutCommand .TransferDstOptimal with
  | none => none
  | some (b1, img1) =>
    match img1.TransitionLayoutCommand .ShaderReadOnlyOptimal with
    | none => none
    | some (b2, img2) =>
      some ([.pipeline_barrier b1,
             .copy_buffer_to_image img1.m_image_layout,
             .pipeline_barrier b2], img2)

/-- Embedding of `VMA::Image::Write` (vulkan_memory.cc lines 219-226):
begin a fresh one-time command buffer, run `WriteCommand`, end and submit.
The command-buffer bracketing carries no image state, so the image effect
is that of `WriteCommand`. -/
def Image.Write (img : Image) : Option (List ImageWriteStep × Image) :=
  img.WriteCommand

/-- Whitelist membership table written from the words of the spec
(section 4.2 and Testable Property 2): the three documented pairs. -/
def spec_transition_whitelist : List (VkImageLayout × VkImageLayout) :=
  [(.Undefined, .TransferDstOptimal),
   (.Undefined, .DepthStencilAttachmentOptimal),
   (.TransferDstOptimal, .ShaderReadOnlyOptimal)]

/-- The documented stage/access/aspect table, written from the words of the
spec (section 4.2): each whitelisted pair with its documented source and
destination pipeline stages, access masks, and aspect mask (depth-only or
depth+stencil chosen by the stencil component of the format). -/
def spec_barrier_table (from_layout target : VkImageLayout) (has_stencil : Bool) :
    Option (Nat × Nat × Nat × Nat × Nat) :=
  match from_layout, target with
  | .Undefined, .TransferDstOptimal =>
      some (VK_PIPELINE_STAGE_TOP_OF_PIPE_BIT, VK_PIPELINE_STAGE_TRANSFER_BIT,
            0, VK_ACCESS_TRANSFER_WRITE_BIT, VK_IMAGE_ASPECT_COLOR_BIT)
  | .Undefined, .DepthStencilAttachmentOptimal =>
      some (VK_PIPELINE_STAGE_TOP_OF_PIPE_BIT, VK_PIPELINE_STAGE_EARLY_FRAGMENT_TESTS_BIT,
            0, VK_ACCESS_DEPTH_STENCIL_ATTACHMENT_READ_BIT |||
               VK_ACCESS_DEPTH_STENCIL_ATTACHMENT_WRITE_BIT,
            if has_stencil then VK_IMAGE_ASPECT_DEPTH_BIT ||| VK_IMAGE_ASPECT_STENCIL_BIT
            else VK_IMAGE_ASPECT_DEPTH_BIT)
  | .TransferDstOptimal, .ShaderReadOnlyOptimal =>
      some (VK_PIPELINE_STAGE_TRANSFER_BIT, VK_PIPELINE_STAGE_FRAGMENT_SHADER_BIT,
            VK_ACCESS_TRANSFER_WRITE_BIT, VK_ACCESS_SHADER_READ_BIT, VK_IMAGE_ASPECT_COLOR_BIT)
  | _, _ => none

/-- C1.  For every image and requested target layout: when the pair
(current layout, target) is in the documented whitelist,
`TransitionLayoutCommand` produces exactly the documented stage/access
masks (and aspect) and the recorded layout becomes the target; outside the
whitelist the call fails (throws) and, the layout update being
unreachable, the recorded layout is unchanged. -/
theorem transition_layout_matches_documented_table :
    ∀ (img : Image) (target : VkImageLayout),
      img.TransitionLayoutCommand target =
        (match spec_barrier_table img.m_image_layout target img.HasStencilComponent with
         | some (ss, sd, sa, da, asp) =>
             some ({ srcAccessMask := sa, dstAccessMask := da,
                     oldLayout := img.m_image_layout, newLayout := target,
                     aspectMask := asp, stage_src := ss, stage_dst := sd },
                   { img with m_image_layout := target })
         | none => none) := by
  intro img target
  rcases img with ⟨layout, fmt⟩
  cases layout <;> cases target <;>
    simp [Image.TransitionLayoutCommand, Image.deduce_transition_layout_barrier,
      spec_barrier_table]

/-- C6 (counterexample).  The claim says `WriteCommand` succeeds regardless
of whether the starting layout is Undefined or a previously assigned one.
It does not: for an image whose recorded layout is already
ShaderReadOnly (the layout every previous Write leaves behind), the first
transition (to TransferDst) is outside the whitelist, so `WriteCommand`
throws instead of succeeding. -/
theorem write_command_fails_from_previous_layout :
    Image.WriteCommand { m_image_layout := .ShaderReadOnlyOptimal,
                         m_image_format := VK_FORMAT_B8G8R8A8_SRGB } = none := by
  decide

/-- C6 (amended).  `Image.Write` and `Image.WriteCommand` perform the
three-step sequence — transition to TransferDst, buffer-to-image copy at
the TransferDst layout, transition to ShaderReadOnly — and succeed exactly
when the starting layout is Undefined (leaving the image in
ShaderReadOnly); from any previously assigned layout the first transition
is outside the whitelist and the call fails with the image unchanged. -/
theorem write_command_three_steps_from_undefined :
    ∀ (img : Image),
      img.WriteCommand =
        (if img.m_image_layout = .Undefined then
          some ([.pipeline_barrier
                   { srcAccessMask := 0, dstAccessMask := VK_ACCESS_TRANSFER_WRITE_BIT,
                     oldLayout := .Undefined, newLayout := .TransferDstOptimal,
                     aspectMask := VK_IMAGE_ASPECT_COLOR_BIT,
                     stage_src := VK_PIPELINE_STAGE_TOP_OF_PIPE_BIT,
                     stage_dst := VK_PIPELINE_STAGE_TRANSFER_BIT },
                 .copy_buffer_to_image .TransferDstOptimal,
                 .pipeline_barrier
                   { srcAccessMask := VK_ACCESS_TRANSFER_WRITE_BIT,
                     dstAccessMask := VK_ACCESS_SHADER_READ_BIT,
                     oldLayout := .TransferDstOptimal, newLayout := .ShaderReadOnlyOptimal,
                     aspectMask := VK_IMAGE_ASPECT_COLOR_BIT,
                     stage_src := VK_PIPELINE_STAGE_TRANSFER_BIT,
                     stage_dst := VK_PIPELINE_STAGE_FRAGMENT_SHADER_BIT }],
                { img with m_image_layout := .ShaderReadOnlyOptimal })
         else none) ∧ img.Write = img.WriteCommand := by
  intro img
  rcases img with ⟨layout, fmt⟩
  refine ⟨?_, rfl⟩
  cases layout <;>
    simp [Image.WriteCommand, Image.TransitionLayoutCommand,
      Image.deduce_transition_layout_barrier]

/-! ## Command buffers (`CommandBufferReset` / `CommandBufferOneTime`
in `vulkan_wrapper.cc`) -/

/-- The state a command-buffer wrapper tracks: the `m_is_recording` flag
and whether the native handle is still allocated (a OneTime buffer frees
it back to its pool inside `Submit`). -/
structure CommandBufferState where
  m_is_recording : Bool
  handle_valid : Bool
deriving DecidableEq, Repr

/-- Native calls issued by the command-buffer operations, in order. -/
inductive CmdEvent where
  | reset_command_buffer
  | begin_command_buffer
  | end_command_buffer
  | queue_submit
  | free_command_buffer
deriving DecidableEq, Repr

/-- Embedding of `CommandBufferReset::Begin` (vulkan_wrapper.cc lines
546-562): the assert rejects a recording buffer; otherwise
`vkResetCommandBuffer` then `vkBeginCommandBuffer`, and the recording flag
is set. -/
def CommandBufferReset.Begin (cb : CommandBufferState) :
    Option (List CmdEvent × CommandBufferState) :=
  if cb.m_is_recording then none
  else some ([.reset_command_buffer, .begin_command_buffer],
             { cb with m_is_recording := true })

/-- Embedding of `CommandBufferReset::End` (lines 564-570): the assert
rejects an idle buffer; otherwise `vkEndCommandBuffer` and the recording
flag is cleared. -/
def CommandBufferReset.End (cb : CommandBufferState) :
    Option (List CmdEvent × CommandBufferState) :=
  if cb.m_is_recording then
    some ([.end_command_buffer], { cb with m_is_recording := false })
  else none

/-- Embedding of `CommandBufferReset::Submit` (lines 572-596).  The source
performs no recording-state check of any kind: it builds the VkSubmitInfo
and calls `vkQueueSubmit` whatever the state, leaving the wrapper state
untouched. -/
def CommandBufferReset.Submit (cb : CommandBufferState) :
    Option (List CmdEvent × CommandBufferState) :=
  some ([.queue_submit], cb)

/-- Embedding of `CommandBufferOneTime::Begin` (lines 598-612): same
assert as the Reset variant but no `vkResetCommandBuffer`. -/
def CommandBufferOneTime.Begin (cb : CommandBufferState) :
    Option (List CmdEvent × CommandBufferState) :=
  if cb.m_is_recording then none
  else some ([.begin_command_buffer], { cb with m_is_recording := true })

/-- Embedding of `CommandBufferOneTime::End` (lines 614-620). -/
def CommandBufferOneTime.End (cb : CommandBufferState) :
    Option (List CmdEvent × CommandBufferState) :=
  if cb.m_is_recording then
    some ([.end_command_buffer], { cb with m_is_recording := false })
  else none

/-- Embedding of `CommandBufferOneTime::Submit` (lines 622-648): no state
check either; after `vkQueueSubmit` it calls `vkFreeCommandBuffers`,
returning the native handle to its pool. -/
def CommandBufferOneTime.Submit (cb : CommandBufferState) :
    Option (List CmdEvent × CommandBufferState) :=
  some ([.queue_submit, .free_command_buffer], { cb with handle_valid := false })

/-- One Begin, End, Submit round trip of a Resettable buffer. -/
def resetCycle (cb : CommandBufferState) : Option CommandBufferState :=
  (CommandBufferReset.Begin cb).bind fun s1 =>
    (CommandBufferReset.End s1.2).bind fun s2 =>
      (CommandBufferReset.Submit s2.2).map fun s3 => s3.2

/-- `n` consecutive Begin, End, Submit round trips of a Resettable buffer. -/
def resetCycles : Nat → CommandBufferState → Option CommandBufferState
  | 0, cb => some cb
  | n + 1, cb => (resetCycle cb).bind (resetCycles n)

/-- One full Begin, End, Submit run of a OneTime buffer, with the
concatenated native-call trace. -/
def oneTimeRun (cb : CommandBufferState) : Option (List CmdEvent × CommandBufferState) :=
  (CommandBufferOneTime.Begin cb).bind fun s1 =>
    (CommandBufferOneTime.End s1.2).bind fun s2 =>
      (CommandBufferOneTime.Submit s2.2).map fun s3 =>
        (s1.1 ++ s2.1 ++ s3.1, s3.2)

/-- C2 (counterexample).  The claim says `Submit` on a buffer in the Idle
state fails.  It does not: `CommandBufferReset::Submit` performs no
recording-state check, so submitting an idle Resettable buffer succeeds
(and the OneTime variant likewise frees its handle without any check). -/
theorem submit_on_idle_buffer_succeeds :
    CommandBufferReset.Submit { m_is_recording := false, handle_valid := true } =
      some ([.queue_submit], { m_is_recording := false, handle_valid := true }) ∧
    CommandBufferOneTime.Submit { m_is_recording := false, handle_valid := true } =
      some ([.queue_submit, .free_command_buffer],
            { m_is_recording := false, handle_valid := false }) := by
  decide

/-- C2 (amended).  The state machine the code enforces: `Begin` on a
recording buffer fails for both variants; `End` on an idle buffer fails
for both variants; `Submit` performs no state check (it succeeds even
from Idle); a Resettable buffer cycles Begin, End, Submit indefinitely
with `Begin` issuing an implicit `vkResetCommandBuffer`; one full OneTime
run frees the native handle back to its pool with exactly one free call. -/
theorem command_buffer_state_machine :
    ∀ (n : Nat) (cb : CommandBufferState),
      CommandBufferReset.Begin { cb with m_is_recording := true } = none ∧
      CommandBufferOneTime.Begin { cb with m_is_recording := true } = none ∧
      CommandBufferReset.End { cb with m_is_recording := false } = none ∧
      CommandBufferOneTime.End { cb with m_is_recording := false } = none ∧
      (CommandBufferReset.Begin { cb with m_is_recording := false }).map (·.1) =
        some [.reset_command_buffer, .begin_command_buffer] ∧
      resetCycles n { cb with m_is_recording := false } =
        some { cb with m_is_recording := false } ∧
      oneTimeRun { m_is_recording := false, handle_valid := true } =
        some ([.begin_command_buffer, .end_command_buffer,
               .queue_submit, .free_command_buffer],
              { m_is_recording := false, handle_valid := false }) ∧
      ((oneTimeRun { m_is_recording := false, handle_valid := true }).map
        (fun r => r.1.count .free_command_buffer)) = some 1 := by
  intro n cb
  refine ⟨?_, ?_, ?_, ?_, ?_, ?_, ?_, ?_⟩
  · simp [CommandBufferReset.Begin]
  · simp [CommandBufferOneTime.Begin]
  · simp [CommandBufferReset.End]
  · simp [CommandBufferOneTime.End]
  · simp [CommandBufferReset.Begin]
  · induction n with
    | zero => rfl
    | succ k ih =>
        simp only [resetCycles, resetCycle, CommandBufferReset.Begin,
          CommandBufferReset.End, CommandBufferReset.Submit] at ih ⊢
        simpa using ih
  · decide
  · decide

/-! ## Swapchain acquire / present (`VulkanContext` in `vulkan_context.cc`) -/

/-- The three distinguishable outcomes of an acquire or present call:
normal return, the distinguished `swapchain_error` signal, or the generic
fatal `std::runtime_error`. -/
inductive SwapchainOutcome where
  | ok
  | swapchain_stale
  | fatal_error
deriving DecidableEq, Repr

/-- Embedding of `VulkanContext::NextSwapChainImageIndex` (vulkan_context.cc
lines 173-181), applied to the VkResult the native
`vkAcquireNextImageKHR` call reports: out-of-date or suboptimal throws
`swapchain_error`; any other non-success throws `std::runtime_error`. -/
def NextSwapChainImageIndex (acquire_result : Int) : SwapchainOutcome :=
  if acquire_result = VK_ERROR_OUT_OF_DATE_KHR ∨ acquire_result = VK_SUBOPTIMAL_KHR then
    .swapchain_stale
  else if acquire_result ≠ VK_SUCCESS then .fatal_error
  else .ok

/-- Embedding of `VulkanContext::PresentSwapChain` (vulkan_context.cc lines
24-42), applied to the VkResult of `vkQueuePresentKHR`: the same
classification as the acquire path. -/
def PresentSwapChain (present_result : Int) : SwapchainOutcome :=
  if present_result = VK_ERROR_OUT_OF_DATE_KHR ∨ present_result = VK_SUBOPTIMAL_KHR then
    .swapchain_stale
  else if present_result ≠ VK_SUCCESS then .fatal_error
  else .ok

/-- C3.  For every native result code, acquire and present fail with the
distinguished SwapchainStale condition exactly on out-of-date or
suboptimal (never the generic error there), fail with the generic fatal
error exactly on every other non-success code, and succeed exactly on
VK_SUCCESS; the two entry points classify identically. -/
theorem swapchain_stale_classification :
    ∀ (r : Int),
      (NextSwapChainImageIndex r = .swapchain_stale ↔
        (r = VK_ERROR_OUT_OF_DATE_KHR ∨ r = VK_SUBOPTIMAL_KHR)) ∧
      (NextSwapChainImageIndex r = .fatal_error ↔
        (r ≠ VK_ERROR_OUT_OF_DATE_KHR ∧ r ≠ VK_SUBOPTIMAL_KHR ∧ r ≠ VK_SUCCESS)) ∧
      (NextSwapChainImageIndex r = .ok ↔ r = VK_SUCCESS) ∧
      PresentSwapChain r = NextSwapChainImageIndex r := by
  intro r
  refine ⟨?_, ?_, ?_, rfl⟩ <;> unfold NextSwapChainImageIndex <;> split_ifs <;>
    simp_all [VK_SUCCESS, VK_SUBOPTIMAL_KHR, VK_ERROR_OUT_OF_DATE_KHR] <;> omega

/-! ## Swapchain recreation and its single-flight guard
(`VulkanContext::RecreateSwapChain`, vulkan_context.cc lines 44-54) -/

/-- Program counter of one thread executing `RecreateSwapChain`.  Each
non-terminal value names the next statement the thread will execute, in
the source's order: the `if (RECREATING) throw` guard check, then
`WaitDeviceIdle()`, then `RECREATING = true`, then `destroy_swap_chain()`,
then `create_swap_chain()`, then `RECREATING = false`.  `failed` is the
thrown concurrent-recreation error, `done` is normal return. -/
inductive RecreatePC where
  | guard_check
  | wait_idle
  | set_flag
  | destroy_swapchain
  | create_swapchain
  | clear_flag
  | done
  | failed
deriving DecidableEq, Repr

/-- Shared state of two threads calling `RecreateSwapChain`: the static
`RECREATING` flag and both program counters. -/
structure RecreateSystem where
  recreating : Bool
  pc1 : RecreatePC
  pc2 : RecreatePC
deriving DecidableEq, Repr

/-- Execute one statement of one thread: returns the new program counter
and the new value of the `RECREATING` flag. -/
def recreateStep (flag : Bool) : RecreatePC → RecreatePC × Bool
  | .guard_check => if flag then (.failed, flag) else (.wait_idle, flag)
  | .wait_idle => (.set_flag, flag)
  | .set_flag => (.destroy_swapchain, true)
  | .destroy_swapchain => (.create_swapchain, flag)
  | .create_swapchain => (.clear_flag, flag)
  | .clear_flag => (.done, false)
  | .done => (.done, flag)
  | .failed => (.failed, flag)

/-- Run a schedule: each list entry names the thread (false = thread 1,
true = thread 2) that executes its next statement. -/
def runRecreateSchedule : List Bool → RecreateSystem → RecreateSystem
  | [], s => s
  | t :: rest, s =>
      if t then
        let (pc, flag) := recreateStep s.recreating s.pc2
        runRecreateSchedule rest { s with recreating := flag, pc2 := pc }
      else
        let (pc, flag) := recreateStep s.recreating s.pc1
        runRecreateSchedule rest { s with recreating := flag, pc1 := pc }

/-- A thread is inside a recreation in progress: it has passed the guard
check and has not yet returned or failed. -/
def RecreatePC.inProgress : RecreatePC → Bool
  | .wait_idle | .set_flag | .destroy_swapchain | .create_swapchain | .clear_flag => true
  | _ => false

/-- C4 (counterexample).  The claim says at no reachable point are two
recreations in progress concurrently and that a second call arriving
while the first waits for device idle fails fast.  It is false: the
`RECREATING` flag is only set after `WaitDeviceIdle()` returns, so a
second caller whose guard check runs while the first is still before
`RECREATING = true` passes the guard, and an interleaving drives both
threads into `destroy_swap_chain` simultaneously with neither failed. -/
theorem concurrent_recreation_reachable :
    (runRecreateSchedule [false, true]
        { recreating := false, pc1 := .guard_check, pc2 := .guard_check } =
      { recreating := false, pc1 := .wait_idle, pc2 := .wait_idle }) ∧
    (runRecreateSchedule [false, false, true, false, true, true]
        { recreating := false, pc1 := .guard_check, pc2 := .guard_check } =
      { recreating := true, pc1 := .destroy_swapchain, pc2 := .destroy_swapchain }) ∧
    (RecreatePC.inProgress .wait_idle = true ∧
     RecreatePC.inProgress .destroy_swapchain = true) := by
  decide

/-- C4 (amended).  The guard serializes only against a first call that has
already set the `RECREATING` flag — which happens after its device-idle
wait, as it begins tearing the old swapchain down: whenever a thread
executes its guard check while the flag is set, that single step makes it
fail fast with the concurrent-recreation error, mutating nothing else; a
guard check that runs while the flag is still clear (in particular while
the first call is inside `WaitDeviceIdle`) is admitted. -/
theorem recreation_guard_rejects_when_flag_set :
    ∀ (s : RecreateSystem),
      (s.recreating = true → s.pc2 = .guard_check →
        runRecreateSchedule [true] s = { s with pc2 := .failed }) ∧
      (s.recreating = true → s.pc1 = .guard_check →
        runRecreateSchedule [false] s = { s with pc1 := .failed }) ∧
      (s.recreating = false → s.pc2 = .guard_check →
        runRecreateSchedule [true] s = { s with pc2 := .wait_idle }) := by
  intro s
  refine ⟨?_, ?_, ?_⟩ <;> intro hflag hpc <;>
    simp [runRecreateSchedule, recreateStep, hflag, hpc]

/-- C4 (witness for the amended theorem), at a state where thread 1 holds
the flag in its destroy phase and thread 2 checks the guard. -/
theorem recreation_guard_rejects_when_flag_set_witness :
    runRecreateSchedule [true]
        { recreating := true, pc1 := .destroy_swapchain, pc2 := .guard_check } =
      { recreating := true, pc1 := .destroy_swapchain, pc2 := .failed } := by
  exact (recreation_guard_rejects_when_flag_set
    { recreating := true, pc1 := .destroy_swapchain, pc2 := .guard_check }).1 rfl rfl

/-! ## Device-context creation guard (`VulkanContext::Create`,
vulkan_context.cc lines 702-728) -/

/-- The global state `Create` can observe or mutate: the static
`NO_VULKAN_CONTEXTS` creation guard and the static per-severity
`s_debug_message_statistics` counters. -/
structure VulkanGlobalState where
  NO_VULKAN_CONTEXTS : Bool
  s_debug_message_statistics : List Nat
deriving DecidableEq, Repr

/-- Embedding of `VulkanContext::Create`: under the creation mutex, the
assert on `NO_VULKAN_CONTEXTS` fails fast when a context already exists,
touching nothing; otherwise the initialization sequence runs (its native
calls may fail, modelled by `init_ok`; a failure there also leaves the
guard unset, because `NO_VULKAN_CONTEXTS = false` is only assigned after
the last step succeeds).  Returns the created context as `some ()`. -/
def VulkanContext.Create (g : VulkanGlobalState) (init_ok : Bool) :
    Option Unit × VulkanGlobalState :=
  if g.NO_VULKAN_CONTEXTS then
    if init_ok then (some (), { g with NO_VULKAN_CONTEXTS := false })
    else (none, g)
  else (none, g)

/-- C5.  A second `VulkanContext::Create` while a context exists (guard
already lowered) fails and leaves the global state — the creation guard
and the debug-message statistics — exactly unchanged; and a successful
first creation lowers the guard without touching the statistics, so the
next attempt does fail. -/
theorem single_context_creation_guard :
    ∀ (stats : List Nat) (init_ok : Bool),
      VulkanContext.Create
          { NO_VULKAN_CONTEXTS := false, s_debug_message_statistics := stats } init_ok =
        (none, { NO_VULKAN_CONTEXTS := false, s_debug_message_statistics := stats }) ∧
      VulkanContext.Create
          { NO_VULKAN_CONTEXTS := true, s_debug_message_statistics := stats } true =
        (some (), { NO_VULKAN_CONTEXTS := false, s_debug_message_statistics := stats }) ∧
      (VulkanContext.Create
          (VulkanContext.Create
            { NO_VULKAN_CONTEXTS := true, s_debug_message_statistics := stats } true).2
          init_ok).1 = none := by
  intro stats init_ok
  refine ⟨rfl, rfl, ?_⟩
  simp [VulkanContext.Create]

/-! ## Pipeline-layout deduction
(`GraphicsPipeline::deduce_pipeline_states_from_shaders`,
vulkan_wrapper.cc lines 336-538) -/

/-- One descriptor binding as reflected from a single shader stage
(set, binding, descriptor type, descriptor count). -/
structure ReflectedBinding where
  set : Nat
  binding : Nat
  type : Nat
  count : Nat
deriving DecidableEq, Repr

/-- The `DescriptorBinding` accumulator record of the source (set, binding,
type, count, plus the stage bit assigned while parsing that stage). -/
structure DescriptorBinding where
  set : Nat
  binding : Nat
  type : Nat
  count : Nat
  stages : Nat
deriving DecidableEq, Repr

/-- The fields of VkDescriptorSetLayoutBinding the conversion operator of
`DescriptorBinding` fills in. -/
structure VkDescriptorSetLayoutBinding where
  binding : Nat
  descriptorType : Nat
  descriptorCount : Nat
  stageFlags : Nat
deriving DecidableEq, Repr

/-- Tag a reflected binding with the stage bit of the shader being parsed
(the per-stage loops at lines 359-373 and 417-431). -/
def tagStage (stage : Nat) (rb : ReflectedBinding) : DescriptorBinding :=
  { set := rb.set, binding := rb.binding, type := rb.type, count := rb.count,
    stages := stage }

/-- Conversion `operator VkDescriptorSetLayoutBinding` of
`DescriptorBinding` (vulkan_wrapper.h lines 175-185). -/
def DescriptorBinding.toLayoutBinding (b : DescriptorBinding) : VkDescriptorSetLayoutBinding :=
  { binding := b.binding, descriptorType := b.type, descriptorCount := b.count,
    stageFlags := b.stages }

/-- Insert into a list sorted by the boolean precedence `le`. -/
def insertSorted {α : Type} (le : α → α → Bool) (a : α) : List α → List α
  | [] => [a]
  | b :: rest => if le a b then a :: b :: rest else b :: insertSorted le a rest

/-- Insertion sort by the boolean precedence `le`; models the `std::sort`
calls of the source.  `std::sort` leaves the order of tied elements
unspecified; this model keeps them in declaration order.  The merged
descriptor-binding stage flags do not depend on tie order (OR commutes),
and the push-constant property refuted below fails under every tie order
(whichever tied element survives carries a single stage bit). -/
def sortBy {α : Type} (le : α → α → Bool) (l : List α) : List α :=
  l.foldr (insertSorted le) []

/-- Precedence derived from the binding comparator at lines 465-470:
descending set index, then descending binding index. -/
def bindingBefore (a b : DescriptorBinding) : Bool :=
  if a.set = b.set then decide (b.binding ≤ a.binding) else decide (b.set < a.set)

/-- Replace the element at index `i` (no-op when out of range; the source
indexes `descriptorSets[currentBinding.set]`, always in range because the
list is sized from the largest set index). -/
def updateAt {α : Type} : Nat → (α → α) → List α → List α
  | _, _, [] => []
  | 0, f, x :: xs => f x :: xs
  | i + 1, f, x :: xs => x :: updateAt i f xs

theorem updateAt_length {α : Type} (i : Nat) (f : α → α) (l : List α) :
    (updateAt i f l).length = l.length := by
  induction l generalizing i with
  | nil => cases i <;> rfl
  | cons x xs ih => cases i <;> simp [updateAt, ih]

/-- The per-set accumulation step (lines 476-493): an empty per-set list
receives the converted binding; otherwise, a binding equal to the last
pushed one merges by OR-ing its stage bit into that last element
(`previousBinding.stageFlags |= currentBinding.stages`), and a different
binding is appended. -/
def pushOrMerge (cs : List VkDescriptorSetLayoutBinding) (b : DescriptorBinding) :
    List VkDescriptorSetLayoutBinding :=
  match cs.getLast? with
  | none => [b.toLayoutBinding]
  | some lastB =>
      if b.binding = lastB.binding then
        cs.dropLast ++ [{ lastB with stageFlags := lastB.stageFlags ||| b.stages }]
      else cs ++ [b.toLayoutBinding]

/-- Group the sorted bindings into per-set layout-binding lists, exactly as
lines 462-493: lists sized `front.set + 1` (the largest set index plus
one, the list being sorted descending), then one accumulation pass. -/
def groupBindings (sorted : List DescriptorBinding) :
    List (List VkDescriptorSetLayoutBinding) :=
  match sorted with
  | [] => []
  | front :: _ =>
      sorted.foldl (fun sets b => updateAt b.set (fun cs => pushOrMerge cs b) sets)
        (List.replicate (front.set + 1) [])

/-- Full descriptor-set-layout deduction over the two shader stages: tag
the vertex bindings with the vertex stage bit and the fragment bindings
with the fragment stage bit (in source order), sort, group and merge.
The result is the per-set binding lists handed to
`vkCreateDescriptorSetLayout`. -/
def deduce_descriptor_set_layouts
    (vertex_bindings fragment_bindings : List ReflectedBinding) :
    List (List VkDescriptorSetLayoutBinding) :=
  groupBindings (sortBy bindingBefore
    (vertex_bindings.map (tagStage VK_SHADER_STAGE_VERTEX_BIT) ++
     fragment_bindings.map (tagStage VK_SHADER_STAGE_FRAGMENT_BIT)))

/-- VkPushConstantRange. -/
structure VkPushConstantRange where
  stageFlags : Nat
  offset : Nat
  size : Nat
deriving DecidableEq, Repr

/-- Precedence derived from the push-constant comparator at lines 516-521:
ascending offset, then ascending size. -/
def pcBefore (a b : VkPushConstantRange) : Bool :=
  if a.offset = b.offset then decide (a.size ≤ b.size) else decide (a.offset ≤ b.offset)

/-- The push-constant merge loop of lines 523-534, index-faithful: `arr` is
the sorted input vector that the loop mutates in place through
`prevPushConstant` (a reference into the input, not into the output), and
`out` is the local `pushConstants` vector seeded with a copy of the
front element.  `fuel` bounds the iteration count; the caller passes the
array length, which the loop (stepping `i` by one up to the length) never
exceeds. -/
def pcMergeLoop (fuel : Nat) (arr out : List VkPushConstantRange) (i : Nat) :
    List VkPushConstantRange × List VkPushConstantRange :=
  match fuel with
  | 0 => (arr, out)
  | fuel + 1 =>
    if i < arr.length then
      let prev := arr.getD (i - 1) { stageFlags := 0, offset := 0, size := 0 }
      let cur := arr.getD i { stageFlags := 0, offset := 0, size := 0 }
      if cur.offset = prev.offset ∧ cur.size = prev.size then
        pcMergeLoop fuel
          (updateAt (i - 1)
            (fun p => { p with stageFlags := p.stageFlags ||| cur.stageFlags }) arr)
          out (i + 1)
      else pcMergeLoop fuel arr (out ++ [cur]) (i + 1)
    else (arr, out)

/-- The final push-constant arrangement of lines 513-536: skip when empty,
sort, seed the output with a copy of the front element, run the merge
loop from index 1, and swap the output back. -/
def arrange_push_constants (pcs : List VkPushConstantRange) : List VkPushConstantRange :=
  if pcs.isEmpty then pcs
  else
    let sorted := sortBy pcBefore pcs
    match sorted with
    | [] => []
    | front :: _ => (pcMergeLoop sorted.length sorted [front] 1).2

/-- Full push-constant deduction over the two shader stages: the reflected
(offset, size) ranges are tagged with the vertex and fragment stage bits
in source order (lines 385-395 and 443-453), then arranged. -/
def deduce_push_constant_ranges
    (vertex_ranges fragment_ranges : List (Nat × Nat)) : List VkPushConstantRange :=
  arrange_push_constants
    ((vertex_ranges.map fun r =>
        { stageFlags := VK_SHADER_STAGE_VERTEX_BIT, offset := r.1, size := r.2 }) ++
     (fragment_ranges.map fun r =>
        { stageFlags := VK_SHADER_STAGE_FRAGMENT_BIT, offset := r.1, size := r.2 }))

/-- C7.  Evaluating the deduction at the failing input: the vertex and the
fragment shader each declare descriptor binding (set 0, binding 0) and a
push-constant range (offset 0, size 16).  The descriptor half conforms to
the claim (stage visibility 0x1 OR 0x10 = 0x11), but the merged
push-constant range keeps only the vertex stage bit: the loop writes the
OR into the sorted input vector, whose un-OR-ed front element had already
been copied into the output, so the OR never reaches the returned list —
contradicting the claimed (and intended, per the merge comment in the
source) OR of both stage masks.  No duplicate range is produced. -/
theorem push_constant_merge_loses_fragment_stage :
    deduce_descriptor_set_layouts
        [{ set := 0, binding := 0, type := 6, count := 1 }]
        [{ set := 0, binding := 0, type := 6, count := 1 }] =
      [[{ binding := 0, descriptorType := 6, descriptorCount := 1,
          stageFlags := VK_SHADER_STAGE_VERTEX_BIT ||| VK_SHADER_STAGE_FRAGMENT_BIT }]] ∧
    deduce_push_constant_ranges [(0, 16)] [(0, 16)] =
      [{ stageFlags := VK_SHADER_STAGE_VERTEX_BIT, offset := 0, size := 16 }] ∧
    VK_SHADER_STAGE_VERTEX_BIT ≠
      VK_SHADER_STAGE_VERTEX_BIT ||| VK_SHADER_STAGE_FRAGMENT_BIT := by
  decide

/-! ## Semaphore and Fence ownership
(`vulkan_wrapper.cc` lines 921-986) -/

/-- A `Semaphore` wrapper: the owning-context reference and the native
handle, both plain values (handles modelled as numbers). -/
structure Semaphore where
  m_context : Nat
  m_semaphore : Nat
deriving DecidableEq, Repr

/-- Embedding of `Semaphore::Semaphore(Semaphore&&)` (lines 937-942): the
new object copies `m_context` and `m_semaphore`; the constructor body is
empty, so the moved-from object keeps both fields.  Returns (new object,
moved-from object as the constructor leaves it). -/
def Semaphore.moveConstruct (rvalue : Semaphore) : Semaphore × Semaphore :=
  ({ m_context := rvalue.m_context, m_semaphore := rvalue.m_semaphore }, rvalue)

/-- Embedding of `Semaphore::~Semaphore` (lines 944-947): unconditionally
calls `vkDestroySemaphore(m_context->m_device, m_semaphore, callback)`;
the release it performs is the (context, handle) pair. -/
def Semaphore.destructorRelease (s : Semaphore) : Nat × Nat :=
  (s.m_context, s.m_semaphore)

/-- Native releases performed when a semaphore is move-constructed and
then both the new and the moved-from object are destroyed. -/
def semaphoreReleasesAfterMove (s : Semaphore) : List (Nat × Nat) :=
  [(Semaphore.moveConstruct s).1.destructorRelease,
   (Semaphore.moveConstruct s).2.destructorRelease]

/-- A `Fence` wrapper, same shape as `Semaphore`. -/
structure Fence where
  m_context : Nat
  m_fence : Nat
deriving DecidableEq, Repr

/-- Embedding of `Fence::Fence(Fence&&)` (lines 965-970): copies both
fields, empty body, moved-from object unmodified. -/
def Fence.moveConstruct (rvalue : Fence) : Fence × Fence :=
  ({ m_context := rvalue.m_context, m_fence := rvalue.m_fence }, rvalue)

/-- Embedding of `Fence::~Fence` (lines 972-975). -/
def Fence.destructorRelease (f : Fence) : Nat × Nat :=
  (f.m_context, f.m_fence)

/-- Native releases performed when a fence is move-constructed and then
both objects are destroyed. -/
def fenceReleasesAfterMove (f : Fence) : List (Nat × Nat) :=
  [(Fence.moveConstruct f).1.destructorRelease,
   (Fence.moveConstruct f).2.destructorRelease]

/-- C9.  Evaluating the code at the failing input: move-construct a
semaphore holding native handle 42 (and a fence holding handle 7) and
destroy both objects.  The move constructors do not clear the moved-from
object's handle, so the handle is held by both objects and
`vkDestroySemaphore`/`vkDestroyFence` runs twice on the same handle —
released exactly twice through the context's allocation callback, not
exactly once as the claim requires. -/
theorem semaphore_fence_move_releases_twice :
    semaphoreReleasesAfterMove { m_context := 1, m_semaphore := 42 } =
      [(1, 42), (1, 42)] ∧
    (semaphoreReleasesAfterMove { m_context := 1, m_semaphore := 42 }).count (1, 42) = 2 ∧
    fenceReleasesAfterMove { m_context := 1, m_fence := 7 } = [(1, 7), (1, 7)] ∧
    (fenceReleasesAfterMove { m_context := 1, m_fence := 7 }).count (1, 7) = 2 := by
  decide

/-! ## Buffer writes (`VMA::Buffer::Write`, vulkan_memory.cc lines 81-97) -/

/-- The VMA allocation fields `Buffer::Write` consults: `GetSize()`,
`IsMappingAllowed()` and `IsPersistentMap()`. -/
structure VmaAllocation where
  size : Nat
  mapping_allowed : Bool
  persistent_map : Bool
deriving DecidableEq, Repr

/-- A `VMA::Buffer` holds its allocation record. -/
structure Buffer where
  m_allocation : VmaAllocation
deriving DecidableEq, Repr

/-- Embedding of `VMA::Buffer::Size` (lines 134-137). -/
def Buffer.Size (b : Buffer) : Nat := b.m_allocation.size

/-- The mapping calls `Buffer::Write` issues; `memcpy source_length count`
records a copy of `count` bytes read from the caller's pointer, whose
actual extent is `source_length` (no length is ever passed in). -/
inductive MapEvent where
  | map_memory
  | memcpy (source_length count : Nat)
  | unmap_memory
deriving DecidableEq, Repr

/-- Embedding of `VMA::Buffer::Write` (lines 81-97): the assert rejects a
non-mappable buffer; a persistently mapped buffer gets one direct
`memcpy`; otherwise `vmaMapMemory`, `memcpy`, `vmaUnmapMemory`.  Both
paths copy `m_allocation->GetSize()` bytes — the caller's data length is
never consulted. -/
def Buffer.Write (buf : Buffer) (data : List Nat) : Option (List MapEvent) :=
  if ¬ buf.m_allocation.mapping_allowed then none
  else if buf.m_allocation.persistent_map then
    some [.memcpy data.length buf.m_allocation.size]
  else
    some [.map_memory, .memcpy data.length buf.m_allocation.size, .unmap_memory]

/-- C10.  For every allocation and every caller-supplied data (of any
length), `Buffer.Write` copies exactly the allocation's reported size —
`Buffer.Size` — on the persistently-mapped path and on the
map-copy-unmap path alike (the latter with the mapping scoped tightly
around the single copy), while a non-mappable buffer is rejected. -/
theorem buffer_write_copies_allocation_size :
    ∀ (a : VmaAllocation) (data : List Nat),
      Buffer.Write ⟨{ a with mapping_allowed := true, persistent_map := true }⟩ data =
        some [.memcpy data.length (Buffer.Size ⟨a⟩)] ∧
      Buffer.Write ⟨{ a with mapping_allowed := true, persistent_map := false }⟩ data =
        some [.map_memory, .memcpy data.length (Buffer.Size ⟨a⟩), .unmap_memory] ∧
      Buffer.Write ⟨{ a with mapping_allowed := false }⟩ data = none := by
  intro a data
  refine ⟨rfl, rfl, ?_⟩
  simp [Buffer.Write]

/-! ## Swapchain image count (`VulkanContext::create_swap_chain`,
vulkan_context.cc lines 399-404) -/

/-- `std::clamp(v, lo, hi)` as implemented: below `lo` gives `lo`, above
`hi` gives `hi`, else `v`. -/
def stdClamp (v lo hi : Nat) : Nat := if v < lo then lo else if hi < v then hi else v

/-- Embedding of the image-count computation: `minImageCount + 1`, then,
when `maxImageCount` is nonzero (zero means no limit), clamped via
`std::clamp(count, count, maxImageCount)`. -/
def swapchain_image_count (minImageCount maxImageCount : Nat) : Nat :=
  let count := minImageCount + 1
  if maxImageCount ≠ 0 then stdClamp count count maxImageCount else count

/-- C8.  Swapchain creation (and recreation, which reruns
`create_swap_chain`) requests exactly `minImageCount + 1` clamped to
`maxImageCount`, with a reported `maxImageCount` of zero meaning no upper
limit; the resulting count is never smaller than that clamped value. -/
theorem swapchain_image_count_is_clamped :
    ∀ (minImageCount maxImageCount : Nat),
      swapchain_image_count minImageCount maxImageCount =
        (if maxImageCount = 0 then minImageCount + 1
         else min (minImageCount + 1) maxImageCount) ∧
      (if maxImageCount = 0 then minImageCount + 1
       else min (minImageCount + 1) maxImageCount) ≤
        swapchain_image_count minImageCount maxImageCount := by
  intro a b
  have h : swapchain_image_count a b =
      (if b = 0 then a + 1 else min (a + 1) b) := by
    unfold swapchain_image_count stdClamp
    simp only [Nat.min_def]
    split_ifs <;> omega
  exact ⟨h, le_of_eq h.symm⟩

end AlbedoRHI
